import Mathlib

/-!
Verification of the command-orchestration and device-resolution layer of the
Android ADB MCP server (`src/android_adb_mcp_server/main.py`).

The Python source is shallowly embedded as executable Lean definitions:

* external process execution is modelled by an oracle `Bridge : String → CommandResult`
  giving, for every full command line, the exit code and the captured streams;
* the local filesystem is modelled as the list of file paths currently on disk;
* the outcome of a Python function that may `raise` is `Except String α`,
  carrying the exception's message;
* Python truthiness of an optional string argument (`if args.get("x"):`) is
  modelled by `pyTruthy`: absent and empty strings are both falsy;
* Python string primitives (`strip`, `in`, `split`, `replace`, `lower`,
  `startswith`) are implemented character by character so that every theorem
  can be evaluated by the kernel on concrete inputs;
* `pathlib.PurePosixPath` normalisation (collapsing repeated separators,
  dropping `.` components and trailing separators, the special `//` root) is
  implemented character by character, following CPython's observable behaviour;
* the stateful handlers run in a hand-rolled monad `M` over a `World` recording
  the trace of spawned bridge commands and the set of files on disk.
-/

namespace AdbMcp

/-- Decidable equality for `Except`, so that concrete runs of the model can be
checked by `decide`. -/
instance {ε α : Type} [DecidableEq ε] [DecidableEq α] : DecidableEq (Except ε α) :=
  fun a b =>
    match a, b with
    | .ok x, .ok y => if h : x = y then isTrue (by rw [h]) else isFalse (by simp [h])
    | .error e, .error f => if h : e = f then isTrue (by rw [h]) else isFalse (by simp [h])
    | .ok _, .error _ => isFalse (by simp)
    | .error _, .ok _ => isFalse (by simp)

/-! ## Python string primitives -/

/-- Python truthiness of an optional string: `None` and `""` are falsy. -/
def pyTruthy : Option String → Bool
  | none => false
  | some s => s ≠ ""

/-- Python `str.strip()`: remove leading and trailing whitespace. -/
def pyStrip (s : String) : String :=
  String.mk (((s.toList.dropWhile Char.isWhitespace).reverse.dropWhile
    Char.isWhitespace).reverse)

/-- Occurrence of `pat` as a contiguous sublist (Python `pat in s` on lists). -/
def subOccurs (pat : List Char) : List Char → Bool
  | [] => pat.isEmpty
  | c :: rest => pat.isPrefixOf (c :: rest) || subOccurs pat rest

/-- Python `pat in s` for strings. -/
def pyIn (pat s : String) : Bool :=
  subOccurs pat.toList s.toList

/-- Split a character list at every character satisfying `p`, keeping empty
pieces (the shape of Python `str.split(sep)` for a one-character separator). -/
def splitWhen (p : Char → Bool) : List Char → List (List Char)
  | [] => [[]]
  | c :: rest =>
    let r := splitWhen p rest
    if p c then [] :: r
    else (c :: r.headD []) :: r.tail

/-- Python `s.split("\n")`. -/
def pyLines (s : String) : List String :=
  (splitWhen (fun c => c = '\n') s.toList).map String.mk

/-- Python whitespace `str.split()` (no argument): split on whitespace runs,
discarding empty pieces. -/
def pySplit (s : String) : List String :=
  ((splitWhen Char.isWhitespace s.toList).filter (fun t => ¬ t.isEmpty)).map String.mk

/-- Fuel-driven core of Python `str.replace` (replace all non-overlapping
occurrences, scanning left to right). -/
def replaceAllAux (pat rep : List Char) : Nat → List Char → List Char
  | _, [] => []
  | 0, cs => cs
  | fuel + 1, c :: rest =>
    if ¬ pat.isEmpty ∧ pat.isPrefixOf (c :: rest) then
      rep ++ replaceAllAux pat rep fuel (rest.drop (pat.length - 1))
    else
      c :: replaceAllAux pat rep fuel rest

/-- Python `s.replace(pat, rep)` (for the non-empty patterns the source uses). -/
def pyReplace (s pat rep : String) : String :=
  String.mk (replaceAllAux pat.toList rep.toList s.toList.length s.toList)

/-- Python `str.lower()` (ASCII, which covers the formats the source handles). -/
def pyLower (s : String) : String :=
  String.mk (s.toList.map Char.toLower)

/-- Python `s.startswith(pre)`. -/
def pyStartsWith (s pre : String) : Bool :=
  pre.toList.isPrefixOf s.toList

/-! ## Bridge executor (`execute_adb_command`, lines 37-57) -/

/-- Result of one spawned external process: exit code and decoded streams. -/
structure CommandResult where
  returncode : Int
  stdout : String
  stderr : String
deriving Repr, DecidableEq

/-- Oracle for the external `adb` executable: maps a full command line to the
process outcome.  One call of the oracle models one spawned process. -/
def Bridge : Type := String → CommandResult

/-- `device_flag = f"-s {device_id} " if device_id else ""` (line 39). -/
def device_flag (device_id : Option String) : String :=
  if pyTruthy device_id then "-s " ++ device_id.getD "" ++ " " else ""

/-- `full_command = f"adb {device_flag}{command}"` (line 40). -/
def full_command (command : String) (device_id : Option String) : String :=
  "adb " ++ device_flag device_id ++ command

/-- The raise condition of lines 50-53: non-zero exit, and the stripped stderr
is non-empty and does not contain the substring `"Warning"`. -/
def adbFailCond (res : CommandResult) : Prop :=
  res.returncode ≠ 0 ∧ pyStrip res.stderr ≠ "" ∧ ¬ (pyIn "Warning" (pyStrip res.stderr))

instance (res : CommandResult) : Decidable (adbFailCond res) := by
  unfold adbFailCond; infer_instance

/-- Body of the `try` block of `execute_adb_command` (lines 50-55): raise on
`adbFailCond`, otherwise return the stripped stdout. -/
def classify_adb (res : CommandResult) : Except String String :=
  if adbFailCond res then
    .error ("ADB command failed: " ++ pyStrip res.stderr)
  else
    .ok (pyStrip res.stdout)

/-- The `except` clause of `execute_adb_command` (lines 56-57) re-wraps any
exception raised by the body with the same prefix once more. -/
def run_adb (res : CommandResult) : Except String String :=
  match classify_adb res with
  | .ok out => .ok out
  | .error m => .error ("ADB command failed: " ++ m)

/-- `execute_adb_command(command, device_id)` (lines 37-57), with the spawned
process given by the bridge oracle. -/
def execute_adb_command (bridge : Bridge) (command : String)
    (device_id : Option String := none) : Except String String :=
  run_adb (bridge (full_command command device_id))

/-! ## Device listing and resolution (`get_connected_devices`,
`validate_device_id`, lines 60-90) -/

/-- A connected device as parsed from `adb devices` output (line 69). -/
structure Device where
  id : String
  state : String
deriving Repr, DecidableEq

/-- Parsing step of `get_connected_devices` (lines 63-71): drop the header
line, keep the first two whitespace-separated tokens of each remaining line,
skip lines with fewer than two tokens. -/
def parse_devices (output : String) : List Device :=
  ((pyLines output).drop 1).filterMap fun line =>
    match pySplit (pyStrip line) with
    | idTok :: stTok :: _ => some ⟨idTok, stTok⟩
    | _ => none

/-- The pure resolution policy of `validate_device_id` (lines 78-90), applied
to an already-obtained device list.  Note the Python truthiness test
`if device_id:` on line 81: an empty-string hint takes the no-hint branch. -/
def validate_device_core (devices : List Device) (device_id : Option String) :
    Except String String :=
  if devices.isEmpty then
    .error "No Android devices connected"
  else if pyTruthy device_id then
    let d := device_id.getD ""
    if devices.any (fun dev => dev.id = d) then .ok d
    else .error ("Device with ID \"" ++ d ++ "\" not found")
  else if devices.length > 1 then
    .error "Multiple devices connected. Please specify a device ID"
  else
    .ok ((devices.headD ⟨"", ""⟩).id)

/-! ## Path resolution (`resolve_path`, lines 128-141)

`pathlib.PurePosixPath` parses a path string into a root (empty, `/`, or the
special two-slash root `//`) and a list of segments, dropping empty and `.`
components; `str()` re-assembles them, so repeated and trailing separators and
`.` components disappear.  The model below implements exactly that observable
behaviour on character lists. -/

/-- Number of leading `/` characters. -/
def leadSlashes : List Char → Nat
  | [] => 0
  | c :: rest => if c = '/' then leadSlashes rest + 1 else 0

/-- The root of a POSIX path: `//` for exactly two leading slashes (POSIX
implementation-defined root, kept by pathlib), `/` for one or three-plus,
empty for a relative path. -/
def rootOf (cs : List Char) : List Char :=
  if leadSlashes cs = 2 then ['/', '/']
  else if 1 ≤ leadSlashes cs then ['/']
  else []

/-- The separator test. -/
def isSlash (c : Char) : Bool :=
  c = '/'

/-- Split at every `/`. -/
def splitSlash (cs : List Char) : List (List Char) :=
  splitWhen isSlash cs

/-- The segments of a POSIX path: the `/`-separated pieces minus empty and
`.` components. -/
def segsOf (cs : List Char) : List (List Char) :=
  (splitSlash cs).filter (fun s => !s.isEmpty && s != ['.'])

/-- Re-assemble segments with `/` separators. -/
def joinWithSlash : List (List Char) → List Char
  | [] => []
  | [s] => s
  | s :: rest => s ++ '/' :: joinWithSlash rest

/-- `str()` of a parsed pathlib path: `.` for the empty relative path,
otherwise root followed by the joined segments. -/
def strOfParsed (root : List Char) (segs : List (List Char)) : List Char :=
  if segs.isEmpty then (if root.isEmpty then ['.'] else root)
  else root ++ joinWithSlash segs

/-- `str(PurePosixPath(cs))`. -/
def normChars (cs : List Char) : List Char :=
  strOfParsed (rootOf cs) (segsOf cs)

/-- `PurePosixPath(cs).is_absolute()`. -/
def isAbsChars (cs : List Char) : Bool :=
  !(rootOf cs).isEmpty

/-- `PurePosixPath(a) / b`: an absolute right operand replaces the left one,
otherwise the segments are concatenated under the left root. -/
def joinChars (a b : List Char) : List Char :=
  if isAbsChars b then strOfParsed (rootOf b) (segsOf b)
  else strOfParsed (rootOf a) (segsOf a ++ segsOf b)

/-- The `str(path).startswith("~/") or str(path) == "~"` test of line 137. -/
def tildeCheck (s : List Char) : Bool :=
  ['~', '/'].isPrefixOf s || s == ['~']

/-- `resolve_path(file_path)` (lines 128-141); `home` models `Path.home()`.
Absolute input: return `str(Path(file_path))`.  A `~`-shorthand input: join
the home directory with `str(path)[2:]`.  Anything else: join the home
directory with the path itself. -/
def resolve_path (home : String) (file_path : String) : String :=
  if isAbsChars file_path.toList then String.mk (normChars file_path.toList)
  else if tildeCheck (normChars file_path.toList) then
    String.mk (joinChars home.toList ((normChars file_path.toList).drop 2))
  else String.mk (joinChars home.toList file_path.toList)

/-- Validity of a parsed segment: non-empty, not `.`, slash-free. -/
def ValidSeg (s : List Char) : Prop :=
  s ≠ [] ∧ s ≠ ['.'] ∧ '/' ∉ s

/-- Validity of a parsed root. -/
def ValidRoot (r : List Char) : Prop :=
  r = [] ∨ r = ['/'] ∨ r = ['/', '/']

/-! ## Launch-component extraction

`re.search(r'([a-zA-Z0-9_.]+/[a-zA-Z0-9_.]+)', package_info)` (lines 656-659,
825-828, 864-867).  Because `/` is not in the token class, the regex needs no
backtracking: the leftmost match is the first position where a maximal run of
token characters is followed by `/` and at least one more token character. -/

/-- The character class `[a-zA-Z0-9_.]`. -/
def isTokChar (c : Char) : Bool :=
  c.isAlphanum || c = '.' || c = '_'

/-- Maximal prefix of token characters, with the remainder. -/
def takeTok : List Char → List Char × List Char
  | [] => ([], [])
  | c :: cs =>
    if isTokChar c then
      let tr := takeTok cs
      (c :: tr.1, tr.2)
    else ([], c :: cs)

/-- Try to match `tok+ '/' tok+` at the start of the list. -/
def matchComponentAt (cs : List Char) : Option String :=
  let tr := takeTok cs
  if tr.1.isEmpty then none
  else
    match tr.2 with
    | '/' :: r2 =>
      let tr2 := takeTok r2
      if tr2.1.isEmpty then none else some (String.mk (tr.1 ++ '/' :: tr2.1))
    | _ => none

/-- Leftmost match of the component regex. -/
def searchComponent : List Char → Option String
  | [] => none
  | c :: cs =>
    match matchComponentAt (c :: cs) with
    | some m => some m
    | none => searchComponent cs

/-- Group 1 of `re.search(r'([a-zA-Z0-9_.]+/[a-zA-Z0-9_.]+)', s)`. -/
def extract_activity (s : String) : Option String :=
  searchComponent s.toList

/-! ## The handler monad

Handlers run over a `World` holding the trace of spawned bridge commands and
the files currently on disk, and can raise Python exceptions. -/

/-- Observable state threaded through a handler invocation. -/
structure World where
  trace : List String
  disk : List String
deriving Repr, DecidableEq

/-- The handler monad: state plus string-message exceptions, with the state
preserved across a raise (files already created stay on disk). -/
def M (α : Type) : Type :=
  World → Except String α × World

instance : Monad M where
  pure a := fun w => (.ok a, w)
  bind x f := fun w =>
    match x w with
    | (.ok a, w2) => f a w2
    | (.error e, w2) => (.error e, w2)

/-- `raise Exception(e)`. -/
def throwM {α : Type} (e : String) : M α :=
  fun w => (.error e, w)

/-- Lift a pure fallible computation. -/
def liftE {α : Type} (x : Except String α) : M α :=
  fun w => (x, w)

/-- `try: x except Exception as e: h e`. -/
def catchM {α : Type} (x : M α) (h : String → M α) : M α :=
  fun w =>
    match x w with
    | (.ok a, w2) => (.ok a, w2)
    | (.error e, w2) => h e w2

/-- `try: x ... finally: fin` for a cleanup action that cannot raise. -/
def withFinally {α : Type} (x : M α) (fin : M Unit) : M α :=
  fun w =>
    match x w with
    | (.ok a, w2) => (.ok a, (fin w2).2)
    | (.error e, w2) => (.error e, (fin w2).2)

/-- Create a file (a set-like insertion). -/
def addFile (disk : List String) (p : String) : List String :=
  if p ∈ disk then disk else disk ++ [p]

/-- Delete a file. -/
def removeFile (disk : List String) (p : String) : List String :=
  disk.filter (fun q => q ≠ p)

/-- `os.unlink(p)` on the modelled disk. -/
def removeFileM (p : String) : M Unit :=
  fun w => (.ok (), { w with disk := removeFile w.disk p })

/-- `os.rename(src, dst)` on the modelled disk. -/
def renameFileM (src dst : String) : M Unit :=
  fun w => (.ok (), { w with disk := addFile (removeFile w.disk src) dst })

/-- `if os.path.exists(p): os.unlink(p)` (lines 761-762). -/
def cleanup_temp (p : String) : M Unit :=
  fun w => (.ok (), if p ∈ w.disk then { w with disk := removeFile w.disk p } else w)

/-- Traced `execute_adb_command`: records the spawned command line. -/
def exec (bridge : Bridge) (command : String) (device_id : Option String) : M String :=
  fun w =>
    (execute_adb_command bridge command device_id,
     { w with trace := w.trace ++ [full_command command device_id] })

/-! ## Environment: the external collaborators of one invocation -/

/-- External collaborators: the bridge oracle, the home directory, directory
writability, the outcomes of the capture / conversion / clipboard
capabilities, the clock value used for the temporary file name, and the
pre-existing filesystem tests used by push/install.  Directory creation
(`os.makedirs(..., exist_ok=True)`) is modelled as succeeding; its failure
mode is subsumed by the writability flag. -/
structure Env where
  bridge : Bridge
  home : String
  writable : Bool
  captureOk : Bool
  convertOk : Bool
  convertErr : String
  clipboardOk : Bool
  clipErr : String
  now : Nat
  fileExists : String → Bool
  isDir : String → Bool

/-- The capture step (lines 694-705 and 731-743): the shell redirection
`> target` creates the target file even when the capture process fails;
a non-zero exit raises `"Failed to take screenshot"`. -/
def captureScreen (env : Env) (device_id : Option String) (target : String) : M Unit :=
  fun w =>
    let cmd := "adb " ++ device_flag device_id ++ "exec-out screencap -p > \"" ++ target ++ "\""
    let w2 := { w with trace := w.trace ++ [cmd], disk := addFile w.disk target }
    if env.captureOk then (.ok (), w2) else (.error "Failed to take screenshot", w2)

/-- `convert_image_format` (lines 109-125): on success the output file is
written (possibly overwriting the input in place); any failure is wrapped as
`"Failed to convert image: ..."` and produces no output file. -/
def convert_image_format (env : Env) (input output : String) : M Unit :=
  fun w =>
    if env.convertOk then (.ok (), { w with disk := addFile w.disk output })
    else (.error ("Failed to convert image: " ++ env.convertErr), w)

/-- `copy_image_to_clipboard` (lines 160-180): opaque platform capability
whose failure is wrapped as `"Failed to copy image to clipboard: ..."`. -/
def copy_image_to_clipboard (env : Env) (_path _fmt : String) : M Unit :=
  fun w =>
    if env.clipboardOk then (.ok (), w)
    else (.error ("Failed to copy image to clipboard: " ++ env.clipErr), w)

/-- `get_file_extension` (lines 93-95). -/
def get_file_extension (format_name : String) : String :=
  "." ++ pyLower format_name

/-- `create_temp_file_path` (lines 98-101), with `tempfile.gettempdir()` fixed
to `/tmp` and the millisecond clock given by `now`. -/
def create_temp_file_path (now : Nat) (format_name : String) : String :=
  "/tmp/adb-screenshot-" ++ toString now ++ get_file_extension format_name

/-- `os.path.dirname` (POSIX): everything up to the last `/`, which is then
stripped of trailing slashes unless it consists only of slashes. -/
def dirname (p : String) : String :=
  let head := (p.toList.reverse.dropWhile (fun c => c != '/')).reverse
  if head.isEmpty then ""
  else if head.all (fun c => c == '/') then String.mk head
  else String.mk ((head.reverse.dropWhile (fun c => c == '/')).reverse)

/-- `get_connected_devices` (lines 60-71), traced. -/
def get_connected_devices (env : Env) : M (List Device) := do
  let out ← exec env.bridge "devices" none
  pure (parse_devices out)

/-- `validate_device_id` (lines 74-90), traced. -/
def validate_device_id (env : Env) (device_id : Option String) : M String := do
  let devices ← get_connected_devices env
  liftE (validate_device_core devices device_id)

/-- The prelude shared by most handlers:
`await validate_device_id(args.get("device_id")) if args.get("device_id") else None`. -/
def resolveIfGiven (env : Env) (device_id : Option String) : M (Option String) :=
  if pyTruthy device_id then do
    let d ← validate_device_id env device_id
    pure (some d)
  else pure none

/-! ## Tool arguments and results -/

/-- The string-valued argument bag of one call (the validated view: a missing
field models both an absent and a non-string Python value, which the
`isinstance` checks treat alike). -/
structure Arguments where
  command : Option String := none
  path : Option String := none
  package_name : Option String := none
  remote_path : Option String := none
  local_path : Option String := none
  output_path : Option String := none
  device_id : Option String := none
  filter : Option String := none
  format : Option String := none

/-- `TextContent(type="text", text=...)`. -/
structure TextContent where
  text : String
deriving Repr, DecidableEq

/-- `json.dumps` of a string, for the identifiers at hand (no escaping). -/
def jsonStringLit (s : String) : String :=
  "\"" ++ s ++ "\""

/-- `json.dumps(items, indent=2)` layout for a list of rendered elements. -/
def jsonArrayIndent2 (items : List String) : String :=
  if items.isEmpty then "[]"
  else "[\n  " ++ String.intercalate ",\n  " items ++ "\n]"

/-- One device object in `json.dumps(devices, indent=2)` (line 528). -/
def deviceJson (d : Device) : String :=
  "\x7b\n    \"id\": " ++ jsonStringLit d.id ++ ",\n    \"state\": " ++
    jsonStringLit d.state ++ "\n  \x7d"

/-! ## Handlers (lines 525-874) -/

/-- `handle_adb_devices` (lines 525-528). -/
def handle_adb_devices (env : Env) : M (List TextContent) := do
  let devices ← get_connected_devices env
  pure [⟨jsonArrayIndent2 (devices.map deviceJson)⟩]

/-- `handle_adb_shell` (lines 530-538). -/
def handle_adb_shell (env : Env) (args : Arguments) : M (List TextContent) :=
  match args.command with
  | none => throwM "Invalid parameters: command is required and must be a string"
  | some cmd => do
    let d ← resolveIfGiven env args.device_id
    let out ← exec env.bridge ("shell " ++ cmd) d
    pure [⟨out⟩]

/-- `handle_adb_install` (lines 540-554). -/
def handle_adb_install (env : Env) (args : Arguments) : M (List TextContent) :=
  match args.path with
  | none => throwM "Invalid parameters: path is required and must be a string"
  | some p => do
    let d ← resolveIfGiven env args.device_id
    let is_multiple := pyIn "*" p || (env.fileExists p && env.isDir p)
    let out ← exec env.bridge
      ((if is_multiple then "install-multiple " else "install ") ++ p) d
    pure [⟨out⟩]

/-- `handle_adb_uninstall` (lines 556-564). -/
def handle_adb_uninstall (env : Env) (args : Arguments) : M (List TextContent) :=
  match args.package_name with
  | none => throwM "Invalid parameters: package_name is required and must be a string"
  | some pkg => do
    let d ← resolveIfGiven env args.device_id
    let out ← exec env.bridge ("uninstall " ++ pkg) d
    pure [⟨out⟩]

/-- `handle_adb_list_packages` (lines 566-584). -/
def handle_adb_list_packages (env : Env) (args : Arguments) : M (List TextContent) := do
  let d ← resolveIfGiven env args.device_id
  let filter_text :=
    if pyTruthy args.filter then some (pyLower (args.filter.getD "")) else none
  let out ← exec env.bridge "shell pm list packages" d
  let packages := ((pyLines out).filter
      (fun line => (pyStrip line != "") && pyStartsWith (pyStrip line) "package:")).map
      (fun line => pyReplace (pyStrip line) "package:" "")
  let packages :=
    match filter_text with
    | some ft => packages.filter (fun pkg => pyIn ft (pyLower pkg))
    | none => packages
  pure [⟨jsonArrayIndent2 (packages.map jsonStringLit)⟩]

/-- `handle_adb_pull` (lines 586-612).  The locally pulled file itself is an
external effect of the bridge and is not tracked on the modelled disk. -/
def handle_adb_pull (env : Env) (args : Arguments) : M (List TextContent) :=
  match args.remote_path, args.local_path with
  | some rp, some lp => do
    let d ← resolveIfGiven env args.device_id
    let resolved := resolve_path env.home lp
    if ¬ env.writable then
      throwM ("Directory is not writable: " ++ dirname resolved ++
        ". Try using an absolute path or a path in your home directory.")
    else
      catchM
        (do
          let out ← exec env.bridge ("pull \"" ++ rp ++ "\" \"" ++ resolved ++ "\"") d
          pure [⟨"File pulled successfully to: " ++ resolved ++ "\n" ++ out⟩])
        (fun e => throwM ("Failed to pull file: " ++ e ++
          ". Try using an absolute path or a path in your home directory."))
  | _, _ => throwM "Invalid parameters: remote_path and local_path are required and must be strings"

/-- `handle_adb_push` (lines 614-630). -/
def handle_adb_push (env : Env) (args : Arguments) : M (List TextContent) :=
  match args.local_path, args.remote_path with
  | some lp, some rp => do
    let d ← resolveIfGiven env args.device_id
    let resolved := resolve_path env.home lp
    if ¬ env.fileExists resolved then
      throwM ("Local file does not exist: " ++ resolved)
    else do
      let out ← exec env.bridge ("push \"" ++ resolved ++ "\" \"" ++ rp ++ "\"") d
      pure [⟨out⟩]
  | _, _ => throwM "Invalid parameters: local_path and remote_path are required and must be strings"

/-- The launcher-intent launch attempt (lines 641-644 and analogues). -/
def monkeyCmd (pkg : String) : String :=
  "shell monkey -p " ++ pkg ++ " -c android.intent.category.LAUNCHER 1"

/-- The main-entry query of the second launch attempt (lines 650-653). -/
def dumpsysCmd (pkg : String) : String :=
  "shell dumpsys package " ++ pkg ++ " | grep -A 1 \"android.intent.action.MAIN\""

/-- `handle_launch_app` (lines 632-666).  Note that when the second attempt
fails, the error re-raised names the *first* attempt's message `e`. -/
def handle_launch_app (env : Env) (args : Arguments) : M (List TextContent) :=
  match args.package_name with
  | none => throwM "Invalid parameters: package_name is required and must be a string"
  | some pkg => do
    let d ← resolveIfGiven env args.device_id
    catchM
      (do
        let out ← exec env.bridge (monkeyCmd pkg) d
        pure [⟨"App launched: " ++ pkg ++ "\n" ++ out⟩])
      (fun e =>
        catchM
          (do
            let package_info ← exec env.bridge (dumpsysCmd pkg) d
            match extract_activity package_info with
            | some activity => do
              let out ← exec env.bridge ("shell am start -n " ++ activity) d
              pure [⟨"App launched with activity: " ++ activity ++ "\n" ++ out⟩]
            | none => throwM "Could not determine main activity")
          (fun _ => throwM ("Failed to launch app: " ++ e)))

/-- `handle_take_screenshot_and_save` (lines 668-721). -/
def handle_take_screenshot_and_save (env : Env) (args : Arguments) : M (List TextContent) :=
  match args.output_path with
  | none => throwM "Invalid parameters: output_path is required and must be a string"
  | some op => do
    let _ ← (if pyTruthy args.device_id then do
        let _ ← validate_device_id env args.device_id
        pure ()
      else pure ())
    let resolved := resolve_path env.home op
    if ¬ env.writable then
      throwM ("Directory is not writable: " ++ dirname resolved ++
        ". Try using an absolute path or a path in your home directory.")
    else
      catchM
        (do
          captureScreen env args.device_id resolved
          let format_name := pyLower (args.format.getD "png")
          if format_name ≠ "png" then do
            let format_output_path := pyReplace resolved ".png" (get_file_extension format_name)
            convert_image_format env resolved format_output_path
            removeFileM resolved
            pure [⟨"Screenshot saved to: " ++ format_output_path ++ " in " ++
              format_name ++ " format"⟩]
          else
            pure [⟨"Screenshot saved to: " ++ resolved ++ " in " ++ format_name ++ " format"⟩])
        (fun e => throwM ("Failed to take screenshot: " ++ e ++
          ". Try using an absolute path or a path in your home directory."))

/-- The `try` body of `handle_take_screenshot_and_copy_to_clipboard`
(lines 729-756). -/
def clip_body (env : Env) (d : Option String) (format_name temp_local_path : String) :
    M (List TextContent) := do
  let temp_png_path := pyReplace temp_local_path ("." ++ format_name) ".png"
  captureScreen env d temp_png_path
  (if format_name ≠ "png" then do
    convert_image_format env temp_png_path temp_local_path
    removeFileM temp_png_path
  else
    renameFileM temp_png_path temp_local_path)
  copy_image_to_clipboard env temp_local_path format_name
  pure [⟨"Screenshot copied to clipboard in " ++ format_name ++ " format"⟩]

/-- `handle_take_screenshot_and_copy_to_clipboard` (lines 723-762): the
`finally` clause deletes the file at `temp_local_path` (only) on every exit
path. -/
def handle_take_screenshot_and_copy_to_clipboard (env : Env) (args : Arguments) :
    M (List TextContent) := do
  let d ← resolveIfGiven env args.device_id
  let format_name := pyLower (args.format.getD "png")
  let temp_local_path := create_temp_file_path env.now format_name
  withFinally
    (catchM (clip_body env d format_name temp_local_path)
      (fun e => throwM ("Failed to take screenshot: " ++ e)))
    (cleanup_temp temp_local_path)

/-- `handle_clear_app_data` (lines 764-772). -/
def handle_clear_app_data (env : Env) (args : Arguments) : M (List TextContent) :=
  match args.package_name with
  | none => throwM "Invalid parameters: package_name is required and must be a string"
  | some pkg => do
    let d ← resolveIfGiven env args.device_id
    let out ← exec env.bridge ("shell pm clear " ++ pkg) d
    pure [⟨"App data cleared for " ++ pkg ++ "\n" ++ out⟩]

/-- `handle_force_stop_app` (lines 774-782). -/
def handle_force_stop_app (env : Env) (args : Arguments) : M (List TextContent) :=
  match args.package_name with
  | none => throwM "Invalid parameters: package_name is required and must be a string"
  | some pkg => do
    let d ← resolveIfGiven env args.device_id
    let out ← exec env.bridge ("shell am force-stop " ++ pkg) d
    pure [⟨"App force stopped: " ++ pkg ++ "\n" ++ out⟩]

/-- `handle_go_to_home` (lines 784-789). -/
def handle_go_to_home (env : Env) (args : Arguments) : M (List TextContent) := do
  let d ← resolveIfGiven env args.device_id
  let out ← exec env.bridge "shell input keyevent KEYCODE_HOME" d
  pure [⟨"Navigated to home screen\n" ++ out⟩]

/-- `handle_open_settings` (lines 791-796). -/
def handle_open_settings (env : Env) (args : Arguments) : M (List TextContent) := do
  let d ← resolveIfGiven env args.device_id
  let out ← exec env.bridge "shell am start -a android.settings.SETTINGS" d
  pure [⟨"Settings app opened\n" ++ out⟩]

/-- The relaunch-with-fallback tail shared verbatim by
`handle_clear_cache_and_restart` (lines 813-833) and
`handle_force_restart_app` (lines 852-872): a failing second attempt or an
unextractable component is folded into the returned text, never re-raised. -/
def launch_fallback (env : Env) (d : Option String) (pkg : String) : M String :=
  catchM (exec env.bridge (monkeyCmd pkg) d)
    (fun _ =>
      catchM
        (do
          let package_info ← exec env.bridge (dumpsysCmd pkg) d
          match extract_activity package_info with
          | some activity => exec env.bridge ("shell am start -n " ++ activity) d
          | none => pure "Could not determine main activity to restart")
        (fun e => pure ("Failed to restart app: " ++ e)))

/-- `handle_clear_cache_and_restart` (lines 798-835); the fixed
`asyncio.sleep(1)` between the primary action and the relaunch has no
observable effect in the model. -/
def handle_clear_cache_and_restart (env : Env) (args : Arguments) : M (List TextContent) :=
  match args.package_name with
  | none => throwM "Invalid parameters: package_name is required and must be a string"
  | some pkg => do
    let d ← resolveIfGiven env args.device_id
    let clear_output ← exec env.bridge ("shell pm clear " ++ pkg) d
    let start_output ← launch_fallback env d pkg
    pure [⟨"App data cleared and restarted: " ++ pkg ++ "\nClear: " ++ clear_output ++
      "\nStart: " ++ start_output⟩]

/-- `handle_force_restart_app` (lines 837-874). -/
def handle_force_restart_app (env : Env) (args : Arguments) : M (List TextContent) :=
  match args.package_name with
  | none => throwM "Invalid parameters: package_name is required and must be a string"
  | some pkg => do
    let d ← resolveIfGiven env args.device_id
    let stop_output ← exec env.bridge ("shell am force-stop " ++ pkg) d
    let start_output ← launch_fallback env d pkg
    pure [⟨"App force restarted: " ++ pkg ++ "\nStop: " ++ stop_output ++
      "\nStart: " ++ start_output⟩]

/-! ## Dispatcher (`call_tool`, lines 485-523) -/

/-- The `if/elif` routing chain of `call_tool`, before its `except` clause. -/
def dispatch_tool (env : Env) (name : String) (args : Arguments) : M (List TextContent) :=
  if name = "adb_devices" then handle_adb_devices env
  else if name = "adb_shell" then handle_adb_shell env args
  else if name = "adb_install" then handle_adb_install env args
  else if name = "adb_uninstall" then handle_adb_uninstall env args
  else if name = "adb_list_packages" then handle_adb_list_packages env args
  else if name = "adb_pull" then handle_adb_pull env args
  else if name = "adb_push" then handle_adb_push env args
  else if name = "launch_app" then handle_launch_app env args
  else if name = "take_screenshot_and_save" then handle_take_screenshot_and_save env args
  else if name = "take_screenshot_and_copy_to_clipboard" then
    handle_take_screenshot_and_copy_to_clipboard env args
  else if name = "clear_app_data" then handle_clear_app_data env args
  else if name = "force_stop_app" then handle_force_stop_app env args
  else if name = "go_to_home" then handle_go_to_home env args
  else if name = "open_settings" then handle_open_settings env args
  else if name = "clear_cache_and_restart" then handle_clear_cache_and_restart env args
  else if name = "force_restart_app" then handle_force_restart_app env args
  else throwM ("Unknown tool: " ++ name)

/-- `call_tool` (lines 485-523): every exception anywhere in the chain is
caught and rendered as a single `"Error: "`-prefixed text result. -/
def call_tool (env : Env) (name : String) (args : Arguments) (w : World) :
    List TextContent × World :=
  match dispatch_tool env name args w with
  | (.ok r, w2) => (r, w2)
  | (.error e, w2) => ([⟨"Error: " ++ e⟩], w2)

/-- A bridge whose every call exits 0 with empty output. -/
def bridgeQuiet : Bridge :=
  fun _ => ⟨0, "", ""⟩

/-- A concrete environment over a given bridge, with every external capability
succeeding, home `/root`, and clock 0. -/
def mkEnv (bridge : Bridge) : Env :=
  { bridge := bridge, home := "/root", writable := true, captureOk := true,
    convertOk := true, convertErr := "broken image", clipboardOk := true,
    clipErr := "no clipboard", now := 0, fileExists := fun _ => false,
    isDir := fun _ => false }

/-- The accepted screenshot formats of the tool schema (lines 355-378). -/
def allowedFormats : List String :=
  ["png", "jpg", "jpeg", "webp", "bmp", "gif"]

/-- A handler computation that, whenever it returns normally, returns exactly
one text content item. -/
def okSingle (x : M (List TextContent)) : Prop :=
  ∀ w ts w2, x w = (.ok ts, w2) → ts.length = 1

/-! ## Supporting lemmas for the bridge classification -/

lemma run_adb_error_iff (res : CommandResult) :
    (∃ m, run_adb res = .error m) ↔ adbFailCond res := by
  unfold run_adb classify_adb
  by_cases h : adbFailCond res
  · rw [if_pos h]; simpa using h
  · rw [if_neg h]; simpa using h

lemma run_adb_error_eq (res : CommandResult) (h : adbFailCond res) :
    run_adb res = .error ("ADB command failed: ADB command failed: " ++ pyStrip res.stderr) := by
  unfold run_adb classify_adb
  rw [if_pos h]
  show Except.error ("ADB command failed: " ++ ("ADB command failed: " ++ pyStrip res.stderr)) = _
  rw [← String.append_assoc]
  have hlit : "ADB command failed: " ++ "ADB command failed: " =
      "ADB command failed: ADB command failed: " := by decide
  rw [hlit]

/-! ## Supporting lemmas for the path model -/

lemma splitWhen_ne_nil (p : Char → Bool) (cs : List Char) : splitWhen p cs ≠ [] := by
  cases cs with
  | nil => simp [splitWhen]
  | cons c rest =>
    simp only [splitWhen]
    split <;> simp

lemma splitWhen_cons_sep (p : Char → Bool) (c : Char) (v : List Char) (h : p c = true) :
    splitWhen p (c :: v) = [] :: splitWhen p v := by
  simp [splitWhen, h]

lemma splitWhen_cons_nonsep (p : Char → Bool) (c : Char) (v : List Char) (h : ¬ p c = true) :
    splitWhen p (c :: v) =
      (c :: (splitWhen p v).headD []) :: (splitWhen p v).tail := by
  simp [splitWhen, h]

lemma mem_splitWhen_not (p : Char → Bool) (cs : List Char) :
    ∀ x ∈ splitWhen p cs, ∀ c ∈ x, ¬ p c := by
  induction cs with
  | nil =>
    intro x hx c hc
    simp [splitWhen] at hx
    subst hx
    simp at hc
  | cons a rest ih =>
    intro x hx c hc
    by_cases hp : p a = true
    · rw [splitWhen_cons_sep p a rest hp] at hx
      rcases List.mem_cons.mp hx with hx | hx
      · subst hx; simp at hc
      · exact ih x hx c hc
    · rw [splitWhen_cons_nonsep p a rest hp] at hx
      rcases List.mem_cons.mp hx with hx | hx
      · subst hx
        rcases List.mem_cons.mp hc with hc | hc
        · subst hc; exact hp
        · have hhd : (splitWhen p rest).headD [] ∈ splitWhen p rest := by
            cases hsw : splitWhen p rest with
            | nil => exact absurd hsw (splitWhen_ne_nil p rest)
            | cons y ys => simp
          exact ih _ hhd c hc
      · exact ih x (List.mem_of_mem_tail hx) c hc

lemma splitWhen_no_sep (p : Char → Bool) (u : List Char) (hu : ∀ c ∈ u, ¬ p c = true) :
    splitWhen p u = [u] := by
  induction u with
  | nil => simp [splitWhen]
  | cons c rest ih =>
    have hc : ¬ p c = true := hu c (by simp)
    have hrest : ∀ x ∈ rest, ¬ p x = true := fun x hx => hu x (by simp [hx])
    rw [splitWhen_cons_nonsep p c rest hc, ih hrest]
    simp

lemma splitWhen_append_sep (p : Char → Bool) (u v : List Char) (sep : Char)
    (hu : ∀ c ∈ u, ¬ p c = true) (hsep : p sep = true) :
    splitWhen p (u ++ sep :: v) = u :: splitWhen p v := by
  induction u with
  | nil => simpa using splitWhen_cons_sep p sep v hsep
  | cons c rest ih =>
    have hc : ¬ p c = true := hu c (by simp)
    have hrest : ∀ x ∈ rest, ¬ p x = true := fun x hx => hu x (by simp [hx])
    rw [List.cons_append, splitWhen_cons_nonsep p c _ hc, ih hrest]
    simp

lemma isSlash_iff (c : Char) : isSlash c = true ↔ c = '/' := by
  simp [isSlash]

lemma not_isSlash_of_not_mem (s : List Char) (h : '/' ∉ s) :
    ∀ c ∈ s, ¬ isSlash c = true := by
  intro c hc hs
  rw [isSlash_iff] at hs
  subst hs
  exact h hc

lemma splitSlash_join (segs : List (List Char)) (hne : segs ≠ [])
    (hval : ∀ s ∈ segs, '/' ∉ s) :
    splitSlash (joinWithSlash segs) = segs := by
  induction segs with
  | nil => exact absurd rfl hne
  | cons s rest ih =>
    cases rest with
    | nil =>
      exact splitWhen_no_sep isSlash s (not_isSlash_of_not_mem s (hval s (by simp)))
    | cons t more =>
      have hrec := ih (by simp) (fun x hx => hval x (by simp [hx]))
      show splitWhen isSlash (s ++ '/' :: joinWithSlash (t :: more)) = s :: t :: more
      rw [splitWhen_append_sep isSlash s (joinWithSlash (t :: more)) '/'
        (not_isSlash_of_not_mem s (hval s (by simp))) (by rw [isSlash_iff])]
      rw [show splitWhen isSlash (joinWithSlash (t :: more)) =
        splitSlash (joinWithSlash (t :: more)) from rfl, hrec]

lemma joinWithSlash_cons (s : List Char) (rest : List (List Char)) :
    ∃ t, joinWithSlash (s :: rest) = s ++ t := by
  cases rest with
  | nil => exact ⟨[], by simp [joinWithSlash]⟩
  | cons x xs => exact ⟨'/' :: joinWithSlash (x :: xs), by simp [joinWithSlash]⟩

lemma leadSlashes_join (segs : List (List Char)) (hne : segs ≠ [])
    (hval : ∀ s ∈ segs, ValidSeg s) :
    leadSlashes (joinWithSlash segs) = 0 := by
  cases segs with
  | nil => exact absurd rfl hne
  | cons s rest =>
    obtain ⟨hs1, _, hs3⟩ := hval s (by simp)
    obtain ⟨c, s', rfl⟩ : ∃ c s', s = c :: s' := by
      cases s with
      | nil => exact absurd rfl hs1
      | cons c s' => exact ⟨c, s', rfl⟩
    have hc : c ≠ '/' := by
      intro h
      rw [h] at hs3
      exact hs3 (List.mem_cons_self _ _)
    obtain ⟨t, ht⟩ := joinWithSlash_cons (c :: s') rest
    rw [ht]
    simp [leadSlashes, hc]

lemma rootOf_valid (cs : List Char) : ValidRoot (rootOf cs) := by
  unfold rootOf ValidRoot
  split_ifs <;> simp

lemma segsOf_valid (cs : List Char) : ∀ x ∈ segsOf cs, ValidSeg x := by
  intro x hx
  unfold segsOf at hx
  rw [List.mem_filter] at hx
  obtain ⟨hmem, hcond⟩ := hx
  have h1 : ¬ x.isEmpty := by
    intro h
    simp [h] at hcond
  have h2 : x ≠ ['.'] := by
    intro h
    simp [h] at hcond
  refine ⟨by simpa [List.isEmpty_iff] using h1, h2, ?_⟩
  intro hmem2
  exact (mem_splitWhen_not _ cs x hmem '/' hmem2) (by rw [isSlash_iff])

lemma leadSlashes_cons_slash (xs : List Char) :
    leadSlashes ('/' :: xs) = leadSlashes xs + 1 := by
  simp [leadSlashes]

lemma rootOf_strOfParsed (r : List Char) (segs : List (List Char))
    (hr : ValidRoot r) (hs : ∀ s ∈ segs, ValidSeg s) :
    rootOf (strOfParsed r segs) = r := by
  cases segs with
  | nil =>
    rcases hr with rfl | rfl | rfl <;> simp [strOfParsed, rootOf, leadSlashes]
  | cons s rest =>
    have hj : leadSlashes (joinWithSlash (s :: rest)) = 0 :=
      leadSlashes_join _ (by simp) hs
    rcases hr with rfl | rfl | rfl
    · simp only [strOfParsed, List.isEmpty_cons, List.nil_append]
      simp [rootOf, hj]
    · simp only [strOfParsed, List.isEmpty_cons]
      simp [rootOf, leadSlashes_cons_slash, hj]
    · simp only [strOfParsed, List.isEmpty_cons]
      simp [rootOf, leadSlashes_cons_slash, hj]

lemma segsOf_cons_slash (v : List Char) : segsOf ('/' :: v) = segsOf v := by
  unfold segsOf splitSlash
  rw [splitWhen_cons_sep isSlash '/' v (by rw [isSlash_iff])]
  simp

lemma segsOf_strOfParsed (r : List Char) (segs : List (List Char))
    (hr : ValidRoot r) (hs : ∀ s ∈ segs, ValidSeg s) :
    segsOf (strOfParsed r segs) = segs := by
  have hfilter : (segs.filter (fun s => !s.isEmpty && s != ['.'])) = segs := by
    apply List.filter_eq_self.mpr
    intro x hx
    obtain ⟨h1, h2, _⟩ := hs x hx
    simp [h1, h2, List.isEmpty_iff]
  cases segs with
  | nil =>
    rcases hr with rfl | rfl | rfl <;>
      simp [strOfParsed, segsOf, splitSlash, splitWhen, isSlash]
  | cons s rest =>
    have hnosl : ∀ x ∈ s :: rest, '/' ∉ x := fun x hx => (hs x hx).2.2
    have hsplit : splitSlash (joinWithSlash (s :: rest)) = s :: rest :=
      splitSlash_join _ (by simp) hnosl
    have hcore : segsOf (joinWithSlash (s :: rest)) = s :: rest := by
      unfold segsOf
      rw [hsplit]
      exact hfilter
    have hred : strOfParsed r (s :: rest) = r ++ joinWithSlash (s :: rest) := by
      simp [strOfParsed]
    rw [hred]
    rcases hr with rfl | rfl | rfl
    · simpa using hcore
    · rw [show ['/'] ++ joinWithSlash (s :: rest) = '/' :: joinWithSlash (s :: rest) from rfl]
      rw [segsOf_cons_slash]
      exact hcore
    · rw [show ['/', '/'] ++ joinWithSlash (s :: rest) =
        '/' :: '/' :: joinWithSlash (s :: rest) from rfl]
      rw [segsOf_cons_slash, segsOf_cons_slash]
      exact hcore

lemma normChars_fixed (r : List Char) (segs : List (List Char))
    (hr : ValidRoot r) (hs : ∀ s ∈ segs, ValidSeg s) :
    normChars (strOfParsed r segs) = strOfParsed r segs := by
  unfold normChars
  rw [rootOf_strOfParsed r segs hr hs, segsOf_strOfParsed r segs hr hs]

lemma isAbsChars_strOfParsed (r : List Char) (segs : List (List Char))
    (hr : ValidRoot r) (hs : ∀ s ∈ segs, ValidSeg s) :
    isAbsChars (strOfParsed r segs) = !r.isEmpty := by
  unfold isAbsChars
  rw [rootOf_strOfParsed r segs hr hs]

lemma isAbsChars_ne_nil (cs : List Char) (h : isAbsChars cs = true) : rootOf cs ≠ [] := by
  intro hr
  unfold isAbsChars at h
  rw [hr] at h
  simp at h

lemma joinChars_shape (a b : List Char) :
    ∃ r segs, joinChars a b = strOfParsed r segs ∧ ValidRoot r ∧
      (∀ s ∈ segs, ValidSeg s) ∧ (isAbsChars a = true → r ≠ []) := by
  unfold joinChars
  by_cases hb : isAbsChars b = true
  · exact ⟨rootOf b, segsOf b, by rw [if_pos hb], rootOf_valid _, segsOf_valid _,
      fun _ => isAbsChars_ne_nil b hb⟩
  · refine ⟨rootOf a, segsOf a ++ segsOf b, by rw [if_neg hb], rootOf_valid _, ?_, fun ha => ?_⟩
    · intro s hsm
      rcases List.mem_append.mp hsm with h | h
      · exact segsOf_valid a s h
      · exact segsOf_valid b s h
    · exact isAbsChars_ne_nil a ha

lemma toList_mk (l : List Char) : (String.mk l).toList = l := rfl

lemma resolve_path_shape (home p : String) :
    ∃ r segs, resolve_path home p = String.mk (strOfParsed r segs) ∧ ValidRoot r ∧
      (∀ s ∈ segs, ValidSeg s) ∧ (isAbsChars home.toList = true → r ≠ []) := by
  unfold resolve_path
  by_cases habs : isAbsChars p.toList = true
  · rw [if_pos habs]
    exact ⟨rootOf p.toList, segsOf p.toList, rfl, rootOf_valid _, segsOf_valid _,
      fun _ => isAbsChars_ne_nil p.toList habs⟩
  · rw [if_neg habs]
    by_cases htl : tildeCheck (normChars p.toList) = true
    · rw [if_pos htl]
      obtain ⟨r, segs, heq, hr, hsegs, hab⟩ :=
        joinChars_shape home.toList ((normChars p.toList).drop 2)
      exact ⟨r, segs, by rw [heq], hr, hsegs, hab⟩
    · rw [if_neg htl]
      obtain ⟨r, segs, heq, hr, hsegs, hab⟩ := joinChars_shape home.toList p.toList
      exact ⟨r, segs, by rw [heq], hr, hsegs, hab⟩

lemma resolve_path_abs (home p : String) (h : isAbsChars p.toList = true) :
    resolve_path home p = String.mk (normChars p.toList) := by
  unfold resolve_path
  rw [if_pos h]

lemma mk_toList (s : String) : String.mk s.toList = s := rfl

lemma isAbsChars_of_root_nil (cs : List Char) (h : rootOf cs = []) :
    isAbsChars cs = false := by
  unfold isAbsChars
  rw [h]
  rfl

lemma rootOf_nil_of_not_abs (cs : List Char) (h : isAbsChars cs = false) :
    rootOf cs = [] := by
  unfold isAbsChars at h
  rcases rootOf_valid cs with h0 | h0 | h0
  · exact h0
  · rw [h0] at h; simp at h
  · rw [h0] at h; simp at h

lemma not_abs_join_valid (segs : List (List Char)) (hne : segs ≠ [])
    (hval : ∀ s ∈ segs, ValidSeg s) :
    isAbsChars (joinWithSlash segs) = false := by
  apply isAbsChars_of_root_nil
  unfold rootOf
  rw [leadSlashes_join segs hne hval]
  simp

lemma tilde_drop_not_abs (cs : List Char) (hna : isAbsChars cs = false)
    (ht : tildeCheck (normChars cs) = true) :
    isAbsChars ((normChars cs).drop 2) = false := by
  have hroot : rootOf cs = [] := rootOf_nil_of_not_abs cs hna
  have hnorm : normChars cs = strOfParsed [] (segsOf cs) := by
    unfold normChars
    rw [hroot]
  cases hsegs : segsOf cs with
  | nil =>
    rw [hsegs] at hnorm
    rw [hnorm] at ht
    exact absurd ht (by decide)
  | cons s1 more =>
    have hval : ∀ x ∈ s1 :: more, ValidSeg x := by
      intro x hx
      apply segsOf_valid cs
      rw [hsegs]
      exact hx
    have hjoin : normChars cs = joinWithSlash (s1 :: more) := by
      rw [hnorm, hsegs]
      simp [strOfParsed]
    rw [hjoin] at ht ⊢
    rcases Bool.or_eq_true _ _ |>.mp ht with hpre | heqt
    · -- starts with "~/"
      obtain ⟨hs1ne, _, hs1sl⟩ := hval s1 (by simp)
      obtain ⟨c, s1', rfl⟩ : ∃ c s1', s1 = c :: s1' := by
        cases s1 with
        | nil => exact absurd rfl hs1ne
        | cons c s1' => exact ⟨c, s1', rfl⟩
      obtain ⟨t, hpre2⟩ := List.isPrefixOf_iff_prefix.mp hpre
      cases more with
      | nil =>
        -- the whole path is the single segment s1, which would contain '/'
        exfalso
        apply hs1sl
        have : joinWithSlash [c :: s1'] = c :: s1' := by simp [joinWithSlash]
        rw [this] at hpre2
        rw [show ['~', '/'] ++ t = '~' :: '/' :: t from rfl] at hpre2
        rw [← hpre2]
        simp
      | cons m1 mrest =>
        cases s1' with
        | nil =>
          have hj : joinWithSlash ([c] :: m1 :: mrest) =
              c :: '/' :: joinWithSlash (m1 :: mrest) := by
            simp [joinWithSlash]
          rw [hj]
          show isAbsChars (joinWithSlash (m1 :: mrest)) = false
          exact not_abs_join_valid (m1 :: mrest) (by simp)
            (fun x hx => hval x (by simp [hx]))
        | cons c2 r2 =>
          exfalso
          apply hs1sl
          have hj : joinWithSlash ((c :: c2 :: r2) :: m1 :: mrest) =
              c :: c2 :: (r2 ++ '/' :: joinWithSlash (m1 :: mrest)) := by
            simp [joinWithSlash]
          rw [hj, show ['~', '/'] ++ t = '~' :: '/' :: t from rfl] at hpre2
          have hc2 : c2 = '/' := by
            have := congrArg (fun l => l.get? 1) hpre2
            simpa using this.symm
          rw [hc2]
          simp
    · -- the whole normalised path is exactly "~"
      have heq2 : joinWithSlash (s1 :: more) = ['~'] := by
        simpa using heqt
      rw [heq2]
      decide

lemma strOfParsed_root_under (q : List (List Char)) :
    ∃ rest, strOfParsed ['/'] (['r', 'o', 'o', 't'] :: q) = "/root".toList ++ rest := by
  cases q with
  | nil => exact ⟨[], by decide⟩
  | cons b bs =>
    refine ⟨'/' :: joinWithSlash (b :: bs), ?_⟩
    rw [show "/root".toList = ['/', 'r', 'o', 'o', 't'] from rfl]
    simp [strOfParsed, joinWithSlash]

lemma joinChars_under_root (b : List Char) (hb : isAbsChars b = false) :
    ∃ rest, joinChars "/root".toList b = "/root".toList ++ rest := by
  unfold joinChars
  rw [if_neg (by rw [hb]; simp)]
  rw [show rootOf "/root".toList = ['/'] from by decide]
  rw [show segsOf "/root".toList = [['r', 'o', 'o', 't']] from by decide]
  exact strOfParsed_root_under (segsOf b)

/-- CLAIM C5: `execute_adb_command` raises exactly when the process exits
non-zero and its stripped stderr is non-empty content not containing the
substring `"Warning"`; in particular a non-zero exit whose stderr is only
`"Warning: deprecated flag"` succeeds, while stderr `"permission denied"`
with non-zero exit fails. -/
theorem C5_bridge_error_classification :
    (∀ (bridge : Bridge) (cmd : String) (dev : Option String),
      (∃ m, execute_adb_command bridge cmd dev = .error m) ↔
        ((bridge (full_command cmd dev)).returncode ≠ 0 ∧
         pyStrip (bridge (full_command cmd dev)).stderr ≠ "" ∧
         ¬ (pyIn "Warning" (pyStrip (bridge (full_command cmd dev)).stderr)))) ∧
    execute_adb_command (fun _ => ⟨1, "ok", "Warning: deprecated flag"⟩) "shell ls" none
      = .ok "ok" ∧
    (∃ m, execute_adb_command (fun _ => ⟨1, "", "permission denied"⟩) "shell ls" none
      = .error m) := by
  refine ⟨fun bridge cmd dev => ?_, rfl, ?_⟩
  · exact (run_adb_error_iff (bridge (full_command cmd dev)))
  · exact ⟨"ADB command failed: " ++ "ADB command failed: permission denied", rfl⟩

/-- Witness for C5 at a concrete bridge: the classification law evaluated on a
process that exits 1 with stderr `"permission denied"`. -/
theorem C5_bridge_error_classification_witness :
    ∃ m, execute_adb_command (fun _ => ⟨1, "out", "permission denied"⟩) "devices" none
        = .error m := by
  have h := C5_bridge_error_classification.1
    (fun _ => ⟨1, "out", "permission denied"⟩) "devices" none
  exact h.mpr (by decide)

/-! ## C10: doubled error prefix -/

/-- CLAIM C10: when `execute_adb_command` fails because of a non-zero exit with
non-warning stderr, the raise inside the `try` body is caught by the same
function's wrap-all `except`, so the visible message carries the prefix
`"ADB command failed: "` twice. -/
theorem C10_doubled_error_prefix (bridge : Bridge) (cmd : String)
    (dev : Option String)
    (hrc : (bridge (full_command cmd dev)).returncode ≠ 0)
    (hne : pyStrip (bridge (full_command cmd dev)).stderr ≠ "")
    (hw : ¬ (pyIn "Warning" (pyStrip (bridge (full_command cmd dev)).stderr))) :
    execute_adb_command bridge cmd dev =
      .error ("ADB command failed: ADB command failed: " ++
        pyStrip (bridge (full_command cmd dev)).stderr) := by
  exact run_adb_error_eq _ ⟨hrc, hne, hw⟩

/-- Witness for C10: a concrete failing process produces the doubled prefix. -/
theorem C10_doubled_error_prefix_witness :
    execute_adb_command (fun _ => ⟨1, "", "no devices/emulators found"⟩) "shell ls" none =
      .error "ADB command failed: ADB command failed: no devices/emulators found" := by
  have h := C10_doubled_error_prefix (fun _ => ⟨1, "", "no devices/emulators found"⟩)
    "shell ls" none (by decide) (by decide) (by decide)
  exact h

/-! ## C4: device resolution policy -/

/-- Counterexample to CLAIM C4: the hint `""` is a given hint that matches no
listed device identifier, so the claim demands `DeviceNotFoundError`; but the
code's truthiness test treats it as an absent hint and resolution succeeds,
returning the sole device's identifier instead of failing. -/
theorem C4_empty_hint_counterexample :
    validate_device_core [⟨"emulator-5554", "device"⟩] (some "") = .ok "emulator-5554" ∧
    validate_device_core [⟨"emulator-5554", "device"⟩] (some "") ≠
      .error "Device with ID \"\" not found" ∧
    "emulator-5554" ≠ "" := by
  decide

/-- CLAIM C4 (amended): the resolution policy of `validate_device_id`, with
"hint given" meaning a *non-empty* hint string: an empty device list always
fails with the no-device error; a given non-empty hint is returned exactly
when some listed identifier equals it (case-sensitively) and otherwise fails
with the not-found error; with no hint, two or more devices fail with the
ambiguity error and a single device resolves to its identifier; an
empty-string hint behaves exactly like an absent hint. -/
theorem C4_device_resolution_amended :
    (∀ hint : Option String,
        validate_device_core [] hint = .error "No Android devices connected") ∧
    (∀ (devices : List Device) (h : String), devices ≠ [] → h ≠ "" →
        ((∃ d ∈ devices, d.id = h) →
            validate_device_core devices (some h) = .ok h) ∧
        ((¬ ∃ d ∈ devices, d.id = h) →
            validate_device_core devices (some h) =
              .error ("Device with ID \"" ++ h ++ "\" not found"))) ∧
    (∀ devices : List Device, 1 < devices.length →
        validate_device_core devices none =
          .error "Multiple devices connected. Please specify a device ID") ∧
    (∀ d : Device, validate_device_core [d] none = .ok d.id) ∧
    (∀ devices : List Device,
        validate_device_core devices (some "") = validate_device_core devices none) := by
  refine ⟨fun hint => rfl, ?_, ?_, ?_, ?_⟩
  · intro devices h hne hh
    have hie : devices.isEmpty = false := by
      cases devices with
      | nil => exact absurd rfl hne
      | cons d ds => rfl
    have hpt : pyTruthy (some h) = true := by simp [pyTruthy, hh]
    constructor
    · intro hex
      have hany : devices.any (fun dev => dev.id = h) = true := by
        rw [List.any_eq_true]
        obtain ⟨d, hd, hid⟩ := hex
        exact ⟨d, hd, by simp [hid]⟩
      unfold validate_device_core
      rw [hie]
      simp only [Bool.false_eq_true, if_false]
      rw [hpt]
      simp only [if_true]
      simp [hany]
    · intro hex
      have hany : devices.any (fun dev => dev.id = h) = false := by
        rw [Bool.eq_false_iff]
        intro hc
        rw [List.any_eq_true] at hc
        obtain ⟨d, hd, hid⟩ := hc
        exact hex ⟨d, hd, by simpa using hid⟩
      unfold validate_device_core
      rw [hie]
      simp only [Bool.false_eq_true, if_false]
      rw [hpt]
      simp only [if_true]
      simp [hany]
  · intro devices hlen
    have hie : devices.isEmpty = false := by
      cases devices with
      | nil => simp at hlen
      | cons d ds => rfl
    unfold validate_device_core
    rw [hie]
    simp [pyTruthy, hlen]
  · intro d
    rfl
  · intro devices
    unfold validate_device_core
    rfl

/-- Witness for C4 (amended) at concrete inputs: a two-device list with a
matching hint resolves to the hint; with an unknown hint it fails with the
not-found error. -/
theorem C4_device_resolution_amended_witness :
    validate_device_core [⟨"a", "device"⟩, ⟨"b", "device"⟩] (some "b") = .ok "b" ∧
    validate_device_core [⟨"a", "device"⟩, ⟨"b", "device"⟩] (some "c") =
      .error "Device with ID \"c\" not found" := by
  have h := C4_device_resolution_amended.2.1 [⟨"a", "device"⟩, ⟨"b", "device"⟩]
  refine ⟨?_, ?_⟩
  · exact (h "b" (by decide) (by decide)).1 ⟨⟨"b", "device"⟩, by decide, rfl⟩
  · exact (h "c" (by decide) (by decide)).2 (by decide)

/-! ## C8: path resolution -/

/-- Counterexample to CLAIM C8: the absolute input `"/a//b"` is not returned
unchanged — `str(Path(p))` normalises the repeated separator away. -/
theorem C8_absolute_not_unchanged_counterexample :
    resolve_path "/root" "/a//b" = "/a/b" ∧ resolve_path "/root" "/a//b" ≠ "/a//b" := by
  decide

/-- CLAIM C8 (amended): `resolve_path` is a pure function on path strings such
that an absolute input is returned in `pathlib`-normalised form (hence
returned unchanged whenever it is already normalised, e.g. `"/abs/x"`); an
input equal to `"~"` or beginning with `"~/"` has the shorthand replaced by
the home directory; and every other (relative) input is joined under the home
directory — so `resolve("~/x")` and `resolve("x")` both lie under the home
directory. -/
theorem C8_path_resolution_amended :
    (∀ home p : String, isAbsChars p.toList = true →
        resolve_path home p = String.mk (normChars p.toList)) ∧
    (∀ home p : String, isAbsChars p.toList = true → normChars p.toList = p.toList →
        resolve_path home p = p) ∧
    (resolve_path "/root" "/abs/x" = "/abs/x" ∧ resolve_path "/root" "~/x" = "/root/x" ∧
      resolve_path "/root" "x" = "/root/x" ∧ resolve_path "/root" "~" = "/root") ∧
    (∀ p : String, isAbsChars p.toList = false →
        ∃ rest, (resolve_path "/root" p).toList = "/root".toList ++ rest) := by
  refine ⟨resolve_path_abs, ?_, by decide, ?_⟩
  · intro home p habs hnorm
    rw [resolve_path_abs home p habs, hnorm, mk_toList]
  · intro p hna
    unfold resolve_path
    rw [if_neg (by rw [hna]; simp)]
    by_cases htl : tildeCheck (normChars p.toList) = true
    · rw [if_pos htl]
      obtain ⟨rest, hrest⟩ := joinChars_under_root ((normChars p.toList).drop 2)
        (tilde_drop_not_abs p.toList hna htl)
      exact ⟨rest, by rw [toList_mk, hrest]⟩
    · rw [if_neg htl]
      obtain ⟨rest, hrest⟩ := joinChars_under_root p.toList hna
      exact ⟨rest, by rw [toList_mk, hrest]⟩

/-- Witness for C8 (amended): the normalised-absolute clause evaluated at
`"/data/local/tmp"`, which is already in normal form. -/
theorem C8_path_resolution_amended_witness :
    resolve_path "/root" "/data/local/tmp" = "/data/local/tmp" := by
  exact C8_path_resolution_amended.2.1 "/root" "/data/local/tmp" (by decide) (by decide)

/-! ## C9: resolve_path is absolutising and idempotent -/

/-- CLAIM C9: for every input string, `resolve_path` returns an absolute path,
and it is idempotent (`resolve(resolve(p)) = resolve(p)`), provided the home
directory itself is absolute (as `Path.home()` is). -/
theorem C9_resolve_absolute_idempotent (home p : String)
    (h : isAbsChars home.toList = true) :
    isAbsChars (resolve_path home p).toList = true ∧
      resolve_path home (resolve_path home p) = resolve_path home p := by
  obtain ⟨r, segs, heq, hr, hsegs, hab⟩ := resolve_path_shape home p
  have hrne := hab h
  have habs_out : isAbsChars (resolve_path home p).toList = true := by
    rw [heq, toList_mk, isAbsChars_strOfParsed r segs hr hsegs]
    simp [hrne]
  refine ⟨habs_out, ?_⟩
  have habs2 : isAbsChars (String.mk (strOfParsed r segs)).toList = true := by
    rw [← heq]
    exact habs_out
  calc resolve_path home (resolve_path home p)
      = resolve_path home (String.mk (strOfParsed r segs)) := by rw [heq]
    _ = String.mk (normChars (String.mk (strOfParsed r segs)).toList) :=
        resolve_path_abs home _ habs2
    _ = String.mk (strOfParsed r segs) := by
        rw [toList_mk, normChars_fixed r segs hr hsegs]
    _ = resolve_path home p := heq.symm

/-- Witness for C9: concrete home `"/root"` and the relative input `"x"`. -/
theorem C9_resolve_absolute_idempotent_witness :
    isAbsChars (resolve_path "/root" "x").toList = true ∧
      resolve_path "/root" (resolve_path "/root" "x") = resolve_path "/root" "x" :=
  C9_resolve_absolute_idempotent "/root" "x" (by decide)

/-! ## Supporting lemmas for the handler monad -/

lemma M_bind_apply {α β : Type} (x : M α) (f : α → M β) (w : World) :
    (x >>= f) w =
      match x w with
      | (.ok a, w2) => f a w2
      | (.error e, w2) => (.error e, w2) := rfl

lemma M_pure_apply {α : Type} (a : α) (w : World) :
    (pure a : M α) w = (.ok a, w) := rfl

lemma okSingle_pure (t : TextContent) : okSingle (pure [t]) := by
  intro w ts w2 h
  rw [M_pure_apply] at h
  simp only [Prod.mk.injEq, Except.ok.injEq] at h
  rw [← h.1]
  rfl

lemma okSingle_throw (e : String) : okSingle (throwM e) := by
  intro w ts w2 h
  simp only [throwM, Prod.mk.injEq] at h
  exact Except.noConfusion h.1

lemma okSingle_bind {α : Type} (x : M α) (f : α → M (List TextContent))
    (hf : ∀ a, okSingle (f a)) : okSingle (x >>= f) := by
  intro w ts w2 h
  rw [M_bind_apply] at h
  cases hx : x w with
  | mk exc w3 =>
    rw [hx] at h
    cases exc with
    | ok a => exact hf a w3 ts w2 h
    | error e =>
      simp only [Prod.mk.injEq] at h
      exact Except.noConfusion h.1

lemma okSingle_catch (x : M (List TextContent)) (hnd : String → M (List TextContent))
    (hx : okSingle x) (hh : ∀ e, okSingle (hnd e)) : okSingle (catchM x hnd) := by
  intro w ts w2 h
  unfold catchM at h
  cases hx2 : x w with
  | mk exc w3 =>
    rw [hx2] at h
    cases exc with
    | ok a =>
      simp only [Prod.mk.injEq, Except.ok.injEq] at h
      rw [← h.1]
      exact hx w a w3 hx2
    | error e => exact hh e w3 ts w2 h

lemma okSingle_withFinally (x : M (List TextContent)) (fin : M Unit)
    (hx : okSingle x) : okSingle (withFinally x fin) := by
  intro w ts w2 h
  unfold withFinally at h
  cases hx2 : x w with
  | mk exc w3 =>
    rw [hx2] at h
    cases exc with
    | ok a =>
      simp only [Prod.mk.injEq, Except.ok.injEq] at h
      rw [← h.1]
      exact hx w a w3 hx2
    | error e =>
      simp only [Prod.mk.injEq] at h
      exact Except.noConfusion h.1

lemma okSingle_ite (c : Prop) [Decidable c] (x y : M (List TextContent))
    (hx : okSingle x) (hy : okSingle y) : okSingle (if c then x else y) := by
  by_cases h : c
  · rw [if_pos h]; exact hx
  · rw [if_neg h]; exact hy

lemma handle_adb_devices_okSingle (env : Env) : okSingle (handle_adb_devices env) := by
  unfold handle_adb_devices
  apply okSingle_bind
  intro devices
  exact okSingle_pure _

lemma handle_adb_shell_okSingle (env : Env) (args : Arguments) :
    okSingle (handle_adb_shell env args) := by
  unfold handle_adb_shell
  cases args.command with
  | none => exact okSingle_throw _
  | some cmd =>
    apply okSingle_bind
    intro d
    apply okSingle_bind
    intro out
    exact okSingle_pure _

lemma handle_adb_install_okSingle (env : Env) (args : Arguments) :
    okSingle (handle_adb_install env args) := by
  unfold handle_adb_install
  cases args.path with
  | none => exact okSingle_throw _
  | some p =>
    apply okSingle_bind
    intro d
    apply okSingle_bind
    intro out
    exact okSingle_pure _

lemma handle_adb_uninstall_okSingle (env : Env) (args : Arguments) :
    okSingle (handle_adb_uninstall env args) := by
  unfold handle_adb_uninstall
  cases args.package_name with
  | none => exact okSingle_throw _
  | some pkg =>
    apply okSingle_bind
    intro d
    apply okSingle_bind
    intro out
    exact okSingle_pure _

lemma handle_adb_list_packages_okSingle (env : Env) (args : Arguments) :
    okSingle (handle_adb_list_packages env args) := by
  unfold handle_adb_list_packages
  apply okSingle_bind
  intro d
  apply okSingle_bind
  intro out
  exact okSingle_pure _

lemma handle_adb_pull_okSingle (env : Env) (args : Arguments) :
    okSingle (handle_adb_pull env args) := by
  unfold handle_adb_pull
  cases args.remote_path with
  | none =>
    cases args.local_path with
    | none => exact okSingle_throw _
    | some lp => exact okSingle_throw _
  | some rp =>
    cases args.local_path with
    | none => exact okSingle_throw _
    | some lp =>
      apply okSingle_bind
      intro d
      apply okSingle_ite
      · exact okSingle_throw _
      · apply okSingle_catch
        · apply okSingle_bind
          intro out
          exact okSingle_pure _
        · intro e
          exact okSingle_throw _

lemma handle_adb_push_okSingle (env : Env) (args : Arguments) :
    okSingle (handle_adb_push env args) := by
  unfold handle_adb_push
  cases args.local_path with
  | none =>
    cases args.remote_path with
    | none => exact okSingle_throw _
    | some rp => exact okSingle_throw _
  | some lp =>
    cases args.remote_path with
    | none => exact okSingle_throw _
    | some rp =>
      apply okSingle_bind
      intro d
      apply okSingle_ite
      · exact okSingle_throw _
      · apply okSingle_bind
        intro out
        exact okSingle_pure _

lemma handle_launch_app_okSingle (env : Env) (args : Arguments) :
    okSingle (handle_launch_app env args) := by
  unfold handle_launch_app
  cases args.package_name with
  | none => exact okSingle_throw _
  | some pkg =>
    apply okSingle_bind
    intro d
    apply okSingle_catch
    · apply okSingle_bind
      intro out
      exact okSingle_pure _
    · intro e
      apply okSingle_catch
      · apply okSingle_bind
        intro package_info
        cases extract_activity package_info with
        | none => exact okSingle_throw _
        | some activity =>
          apply okSingle_bind
          intro out
          exact okSingle_pure _
      · intro e2
        exact okSingle_throw _

lemma handle_take_screenshot_and_save_okSingle (env : Env) (args : Arguments) :
    okSingle (handle_take_screenshot_and_save env args) := by
  unfold handle_take_screenshot_and_save
  cases args.output_path with
  | none => exact okSingle_throw _
  | some op =>
    apply okSingle_bind
    intro u
    apply okSingle_ite
    · exact okSingle_throw _
    · apply okSingle_catch
      · apply okSingle_bind
        intro u2
        apply okSingle_ite
        · apply okSingle_bind
          intro u3
          apply okSingle_bind
          intro u4
          exact okSingle_pure _
        · exact okSingle_pure _
      · intro e
        exact okSingle_throw _

lemma clip_body_okSingle (env : Env) (d : Option String) (fmt tmp : String) :
    okSingle (clip_body env d fmt tmp) := by
  unfold clip_body
  apply okSingle_bind
  intro u
  apply okSingle_bind
  intro u2
  apply okSingle_bind
  intro u3
  exact okSingle_pure _

lemma handle_clip_okSingle (env : Env) (args : Arguments) :
    okSingle (handle_take_screenshot_and_copy_to_clipboard env args) := by
  unfold handle_take_screenshot_and_copy_to_clipboard
  apply okSingle_bind
  intro d
  apply okSingle_withFinally
  apply okSingle_catch
  · exact clip_body_okSingle env d _ _
  · intro e
    exact okSingle_throw _

lemma handle_clear_app_data_okSingle (env : Env) (args : Arguments) :
    okSingle (handle_clear_app_data env args) := by
  unfold handle_clear_app_data
  cases args.package_name with
  | none => exact okSingle_throw _
  | some pkg =>
    apply okSingle_bind
    intro d
    apply okSingle_bind
    intro out
    exact okSingle_pure _

lemma handle_force_stop_app_okSingle (env : Env) (args : Arguments) :
    okSingle (handle_force_stop_app env args) := by
  unfold handle_force_stop_app
  cases args.package_name with
  | none => exact okSingle_throw _
  | some pkg =>
    apply okSingle_bind
    intro d
    apply okSingle_bind
    intro out
    exact okSingle_pure _

lemma handle_go_to_home_okSingle (env : Env) (args : Arguments) :
    okSingle (handle_go_to_home env args) := by
  unfold handle_go_to_home
  apply okSingle_bind
  intro d
  apply okSingle_bind
  intro out
  exact okSingle_pure _

lemma handle_open_settings_okSingle (env : Env) (args : Arguments) :
    okSingle (handle_open_settings env args) := by
  unfold handle_open_settings
  apply okSingle_bind
  intro d
  apply okSingle_bind
  intro out
  exact okSingle_pure _

lemma handle_clear_cache_and_restart_okSingle (env : Env) (args : Arguments) :
    okSingle (handle_clear_cache_and_restart env args) := by
  unfold handle_clear_cache_and_restart
  cases args.package_name with
  | none => exact okSingle_throw _
  | some pkg =>
    apply okSingle_bind
    intro d
    apply okSingle_bind
    intro clear_output
    apply okSingle_bind
    intro start_output
    exact okSingle_pure _

lemma handle_force_restart_app_okSingle (env : Env) (args : Arguments) :
    okSingle (handle_force_restart_app env args) := by
  unfold handle_force_restart_app
  cases args.package_name with
  | none => exact okSingle_throw _
  | some pkg =>
    apply okSingle_bind
    intro d
    apply okSingle_bind
    intro stop_output
    apply okSingle_bind
    intro start_output
    exact okSingle_pure _

lemma dispatch_tool_okSingle (env : Env) (name : String) (args : Arguments) :
    okSingle (dispatch_tool env name args) := by
  unfold dispatch_tool
  refine okSingle_ite _ _ _ (handle_adb_devices_okSingle env) ?_
  refine okSingle_ite _ _ _ (handle_adb_shell_okSingle env args) ?_
  refine okSingle_ite _ _ _ (handle_adb_install_okSingle env args) ?_
  refine okSingle_ite _ _ _ (handle_adb_uninstall_okSingle env args) ?_
  refine okSingle_ite _ _ _ (handle_adb_list_packages_okSingle env args) ?_
  refine okSingle_ite _ _ _ (handle_adb_pull_okSingle env args) ?_
  refine okSingle_ite _ _ _ (handle_adb_push_okSingle env args) ?_
  refine okSingle_ite _ _ _ (handle_launch_app_okSingle env args) ?_
  refine okSingle_ite _ _ _ (handle_take_screenshot_and_save_okSingle env args) ?_
  refine okSingle_ite _ _ _ (handle_clip_okSingle env args) ?_
  refine okSingle_ite _ _ _ (handle_clear_app_data_okSingle env args) ?_
  refine okSingle_ite _ _ _ (handle_force_stop_app_okSingle env args) ?_
  refine okSingle_ite _ _ _ (handle_go_to_home_okSingle env args) ?_
  refine okSingle_ite _ _ _ (handle_open_settings_okSingle env args) ?_
  refine okSingle_ite _ _ _ (handle_clear_cache_and_restart_okSingle env args) ?_
  refine okSingle_ite _ _ _ (handle_force_restart_app_okSingle env args) ?_
  exact okSingle_throw _

/-! ## C7: total dispatch with uniform error rendering -/

/-- CLAIM C7: for every verb (known or unknown) and argument bag, `call_tool`
returns a result value — exactly one text content item — and never propagates
an exception; whenever the routed computation fails, the result is the single
text `"Error: " ++ message`. -/
theorem C7_dispatcher_never_propagates (env : Env) (name : String) (args : Arguments)
    (w : World) :
    (call_tool env name args w).1.length = 1 ∧
    (∀ e w2, dispatch_tool env name args w = (.error e, w2) →
      call_tool env name args w = ([⟨"Error: " ++ e⟩], w2)) := by
  constructor
  · unfold call_tool
    cases hd : dispatch_tool env name args w with
    | mk exc w2 =>
      cases exc with
      | ok r => exact dispatch_tool_okSingle env name args w r w2 hd
      | error e => rfl
  · intro e w2 hd
    unfold call_tool
    rw [hd]

/-- Witness for C7: an unknown verb at a concrete environment produces the
single `"Error: "`-prefixed text. -/
theorem C7_dispatcher_never_propagates_witness :
    call_tool (mkEnv bridgeQuiet) "bogus_tool" {} ⟨[], []⟩ =
      ([⟨"Error: " ++ "Unknown tool: bogus_tool"⟩], ⟨[], []⟩) :=
  (C7_dispatcher_never_propagates (mkEnv bridgeQuiet) "bogus_tool" {} ⟨[], []⟩).2
    "Unknown tool: bogus_tool" ⟨[], []⟩ (by decide)

/-! ## C2: when device resolution actually runs -/

/-- Counterexample to CLAIM C2: with the quiet bridge there are zero connected
devices, yet `adb_shell` invoked without a device identifier never runs the
resolution policy: it does not fail with the no-device error, and the only
spawned bridge command is the operation's own verb. -/
theorem C2_skipped_resolution_counterexample :
    get_connected_devices (mkEnv bridgeQuiet) ⟨[], []⟩ = (.ok [], ⟨["adb devices"], []⟩) ∧
    handle_adb_shell (mkEnv bridgeQuiet) { command := some "ls" } ⟨[], []⟩ =
      (.ok [⟨""⟩], ⟨["adb shell ls"], []⟩) := by
  decide

/-- CLAIM C2 (amended): the resolution policy runs before the operation's
bridge verb only when an explicit (non-empty) device identifier is supplied.
Without one, `adb_shell` and `clear_app_data` spawn exactly the operation's
own verb with no device flag and no resolution error.  With a non-empty
identifier and an empty device list, they fail with the no-device error after
spawning only the device-list query — before the operation's verb. -/
theorem C2_resolution_policy_amended :
    (∀ (env : Env) (cmd : String) (w : World),
      handle_adb_shell env { command := some cmd } w =
        ((execute_adb_command env.bridge ("shell " ++ cmd) none).map (fun out => [⟨out⟩]),
         { w with trace := w.trace ++ [full_command ("shell " ++ cmd) none] })) ∧
    (∀ (env : Env) (pkg : String) (w : World),
      handle_clear_app_data env { package_name := some pkg } w =
        ((execute_adb_command env.bridge ("shell pm clear " ++ pkg) none).map
            (fun out => [⟨"App data cleared for " ++ pkg ++ "\n" ++ out⟩]),
         { w with trace := w.trace ++ [full_command ("shell pm clear " ++ pkg) none] })) ∧
    (∀ (env : Env) (hint cmd out : String) (w : World), hint ≠ "" →
      execute_adb_command env.bridge "devices" none = .ok out →
      parse_devices out = [] →
      handle_adb_shell env { command := some cmd, device_id := some hint } w =
        (.error "No Android devices connected",
         { w with trace := w.trace ++ [full_command "devices" none] })) ∧
    (∀ (env : Env) (hint pkg out : String) (w : World), hint ≠ "" →
      execute_adb_command env.bridge "devices" none = .ok out →
      parse_devices out = [] →
      handle_clear_app_data env { package_name := some pkg, device_id := some hint } w =
        (.error "No Android devices connected",
         { w with trace := w.trace ++ [full_command "devices" none] })) := by
  have hhint : ∀ (env : Env) (hint out : String) (w : World), hint ≠ "" →
      execute_adb_command env.bridge "devices" none = .ok out →
      parse_devices out = [] →
      resolveIfGiven env (some hint) w =
        (.error "No Android devices connected",
         { w with trace := w.trace ++ [full_command "devices" none] }) := by
    intro env hint out w hne hdev hparse
    have hpt : pyTruthy (some hint) = true := by simp [pyTruthy, hne]
    unfold resolveIfGiven validate_device_id get_connected_devices exec liftE
    rw [if_pos hpt]
    simp only [M_bind_apply, hdev, M_pure_apply, hparse]
    rfl
  refine ⟨?_, ?_, ?_, ?_⟩
  · intro env cmd w
    show (resolveIfGiven env none >>= fun d =>
      exec env.bridge ("shell " ++ cmd) d >>= fun out =>
        pure [(⟨out⟩ : TextContent)]) w = _
    unfold resolveIfGiven exec
    simp only [pyTruthy, Bool.false_eq_true, if_false, M_bind_apply, M_pure_apply]
    cases hE : execute_adb_command env.bridge ("shell " ++ cmd) none with
    | ok out => rfl
    | error e => rfl
  · intro env pkg w
    show (resolveIfGiven env none >>= fun d =>
      exec env.bridge ("shell pm clear " ++ pkg) d >>= fun out =>
        pure [(⟨"App data cleared for " ++ pkg ++ "\n" ++ out⟩ : TextContent)]) w = _
    unfold resolveIfGiven exec
    simp only [pyTruthy, Bool.false_eq_true, if_false, M_bind_apply, M_pure_apply]
    cases hE : execute_adb_command env.bridge ("shell pm clear " ++ pkg) none with
    | ok out => rfl
    | error e => rfl
  · intro env hint cmd out w hne hdev hparse
    show (resolveIfGiven env (some hint) >>= fun d =>
      exec env.bridge ("shell " ++ cmd) d >>= fun out2 =>
        pure [(⟨out2⟩ : TextContent)]) w = _
    rw [M_bind_apply, hhint env hint out w hne hdev hparse]
  · intro env hint pkg out w hne hdev hparse
    show (resolveIfGiven env (some hint) >>= fun d =>
      exec env.bridge ("shell pm clear " ++ pkg) d >>= fun out2 =>
        pure [(⟨"App data cleared for " ++ pkg ++ "\n" ++ out2⟩ : TextContent)]) w = _
    rw [M_bind_apply, hhint env hint out w hne hdev hparse]

/-- Witness for C2 (amended): the no-device failure of the third clause at a
concrete bridge reporting an empty device table. -/
theorem C2_resolution_policy_amended_witness :
    handle_adb_shell (mkEnv bridgeQuiet) { command := some "ls", device_id := some "emu" }
        ⟨[], []⟩ =
      (.error "No Android devices connected", ⟨[full_command "devices" none], []⟩) := by
  have h := C2_resolution_policy_amended.2.2.1 (mkEnv bridgeQuiet) "emu" "ls" "" ⟨[], []⟩
    (by decide) (by decide) (by decide)
  simpa using h

/-! ## C6: relaunch-failure escalation policy -/

/-- CLAIM C6: after a successful primary action, when the launcher-intent
attempt fails and the component extracted from the main-entry query also fails
to start, `clear_cache_and_restart` still returns a success-shaped result
whose text carries the relaunch-failure note, while `launch_app` under the
same two-attempt failure returns a failure-shaped result. -/
theorem C6_relaunch_failure_policy (env : Env)
    (pkg clearOut info act em em2 : String)
    (hclear : execute_adb_command env.bridge ("shell pm clear " ++ pkg) none = .ok clearOut)
    (hmonkey : execute_adb_command env.bridge (monkeyCmd pkg) none = .error em)
    (hdump : execute_adb_command env.bridge (dumpsysCmd pkg) none = .ok info)
    (hact : extract_activity info = some act)
    (hstart : execute_adb_command env.bridge ("shell am start -n " ++ act) none = .error em2)
    (w : World) :
    (handle_clear_cache_and_restart env { package_name := some pkg } w).1 =
      .ok [⟨"App data cleared and restarted: " ++ pkg ++ "\nClear: " ++ clearOut ++
        "\nStart: " ++ ("Failed to restart app: " ++ em2)⟩] ∧
    (handle_launch_app env { package_name := some pkg } w).1 =
      .error ("Failed to launch app: " ++ em) := by
  have hfb : ∀ w2 : World, launch_fallback env none pkg w2 =
      (.ok ("Failed to restart app: " ++ em2),
       { w2 with trace := ((w2.trace ++ [full_command (monkeyCmd pkg) none]) ++
          [full_command (dumpsysCmd pkg) none]) ++
          [full_command ("shell am start -n " ++ act) none] }) := by
    intro w2
    unfold launch_fallback catchM exec
    simp only [M_bind_apply, hmonkey, hdump, M_pure_apply, hact, hstart]
  constructor
  · show ((resolveIfGiven env none >>= fun d =>
      exec env.bridge ("shell pm clear " ++ pkg) d >>= fun clear_output =>
        launch_fallback env d pkg >>= fun start_output =>
          pure [(⟨"App data cleared and restarted: " ++ pkg ++ "\nClear: " ++ clear_output ++
            "\nStart: " ++ start_output⟩ : TextContent)]) w).1 = _
    unfold resolveIfGiven exec
    simp only [pyTruthy, Bool.false_eq_true, if_false, M_bind_apply, M_pure_apply, hclear, hfb]
  · show ((resolveIfGiven env none >>= fun d =>
      catchM
        (exec env.bridge (monkeyCmd pkg) d >>= fun out =>
          pure [(⟨"App launched: " ++ pkg ++ "\n" ++ out⟩ : TextContent)])
        (fun e =>
          catchM
            (exec env.bridge (dumpsysCmd pkg) d >>= fun package_info =>
              match extract_activity package_info with
              | some activity =>
                exec env.bridge ("shell am start -n " ++ activity) d >>= fun out =>
                  pure [(⟨"App launched with activity: " ++ activity ++ "\n" ++ out⟩ :
                    TextContent)]
              | none => throwM "Could not determine main activity")
            (fun _ => throwM ("Failed to launch app: " ++ e)))) w).1 = _
    unfold resolveIfGiven catchM exec
    simp only [pyTruthy, Bool.false_eq_true, if_false, M_bind_apply, M_pure_apply,
      hmonkey, hdump, hact, hstart]
    rfl

/-- A bridge under which clearing succeeds, the launcher-intent attempt fails,
the main-entry query returns a component reference, and starting that
component also fails. -/
def bridgeRelaunchFail : Bridge := fun c =>
  if c = "adb shell pm clear com.example.app" then ⟨0, "Success", ""⟩
  else if c = "adb shell monkey -p com.example.app -c android.intent.category.LAUNCHER 1" then
    ⟨1, "", "monkey aborted"⟩
  else if c = "adb shell dumpsys package com.example.app | grep -A 1 \"android.intent.action.MAIN\"" then
    ⟨0, "  com.example.app/com.example.app.MainActivity filter 1", ""⟩
  else if c = "adb shell am start -n com.example.app/com.example.app.MainActivity" then
    ⟨1, "", "Error: Activity not started"⟩
  else ⟨0, "", ""⟩

/-- Witness for C6 at the concrete failing bridge. -/
theorem C6_relaunch_failure_policy_witness :
    (handle_clear_cache_and_restart (mkEnv bridgeRelaunchFail)
        { package_name := some "com.example.app" } ⟨[], []⟩).1 =
      .ok [⟨"App data cleared and restarted: " ++ "com.example.app" ++ "\nClear: " ++
        "Success" ++ "\nStart: " ++
        ("Failed to restart app: " ++
          "ADB command failed: ADB command failed: Error: Activity not started")⟩] ∧
    (handle_launch_app (mkEnv bridgeRelaunchFail)
        { package_name := some "com.example.app" } ⟨[], []⟩).1 =
      .error ("Failed to launch app: " ++
        "ADB command failed: ADB command failed: monkey aborted") :=
  C6_relaunch_failure_policy (mkEnv bridgeRelaunchFail) "com.example.app" "Success"
    "com.example.app/com.example.app.MainActivity filter 1"
    "com.example.app/com.example.app.MainActivity"
    "ADB command failed: ADB command failed: monkey aborted"
    "ADB command failed: ADB command failed: Error: Activity not started"
    (by decide) (by decide) (by decide) (by decide) (by decide) ⟨[], []⟩

/-! ## C1: clipboard-capture cleanup -/

/-- An environment whose screen capture fails. -/
def envCaptureFail : Env :=
  { mkEnv bridgeQuiet with captureOk := false }

/-- Counterexample to CLAIM C1: a `jpg`-format invocation whose capture step
fails leaves the intermediate PNG file on disk — the `finally` clause removes
only the file at the final temp path. -/
theorem C1_png_intermediate_leak_counterexample :
    (handle_take_screenshot_and_copy_to_clipboard envCaptureFail
        { format := some "jpg" } ⟨[], []⟩).2.disk = ["/tmp/adb-screenshot-0.png"] ∧
    (handle_take_screenshot_and_copy_to_clipboard envCaptureFail
        { format := some "jpg" } ⟨[], []⟩).1 =
      .error "Failed to take screenshot: Failed to take screenshot" := by
  decide

/-- CLAIM C1 (amended): for every schema format and every outcome of the
capture, conversion and clipboard steps (device hint absent, clock fixed),
the file at the final temp path is deleted on every exit path; zero files
remain exactly when the format is `png`, or the capture and conversion steps
both succeed — otherwise the PNG intermediate remains. -/
theorem C1_clipboard_cleanup_amended :
    ∀ fmt ∈ allowedFormats, ∀ cap conv clip : Bool,
      create_temp_file_path 0 fmt ∉
        (handle_take_screenshot_and_copy_to_clipboard
          { mkEnv bridgeQuiet with captureOk := cap, convertOk := conv, clipboardOk := clip }
          { format := some fmt } ⟨[], []⟩).2.disk ∧
      ((handle_take_screenshot_and_copy_to_clipboard
          { mkEnv bridgeQuiet with captureOk := cap, convertOk := conv, clipboardOk := clip }
          { format := some fmt } ⟨[], []⟩).2.disk = [] ↔
        (fmt = "png" ∨ (cap = true ∧ conv = true))) := by
  decide

/-- Witness for C1 (amended): `jpg` format with capture succeeding and
conversion failing — the final temp file is absent but files remain. -/
theorem C1_clipboard_cleanup_amended_witness :
    create_temp_file_path 0 "jpg" ∉
      (handle_take_screenshot_and_copy_to_clipboard
        { mkEnv bridgeQuiet with captureOk := true, convertOk := false, clipboardOk := true }
        { format := some "jpg" } ⟨[], []⟩).2.disk ∧
    ((handle_take_screenshot_and_copy_to_clipboard
        { mkEnv bridgeQuiet with captureOk := true, convertOk := false, clipboardOk := true }
        { format := some "jpg" } ⟨[], []⟩).2.disk = [] ↔
      ("jpg" = "png" ∨ (true = true ∧ false = true))) :=
  C1_clipboard_cleanup_amended "jpg" (by decide) true false true

/-! ## C3: save-to-file with format conversion -/

/-- CLAIM C3 evaluated at the failing input (code bug): with
`output_path = "shot.jpg"` and `format = "jpg"`, capture and conversion both
succeeding, the `.png → .jpg` substitution leaves the path unchanged, so the
handler converts in place and then deletes the file it just produced: the
success message names `/root/shot.jpg` but zero files remain on disk.  With a
`.png`-suffixed output path the handler behaves as the claim describes,
leaving exactly the converted `.jpg` sibling. -/
theorem C3_save_jpg_roundtrip_bug :
    (handle_take_screenshot_and_save (mkEnv bridgeQuiet)
        { output_path := some "shot.jpg", format := some "jpg" } ⟨[], []⟩).1 =
      .ok [⟨"Screenshot saved to: /root/shot.jpg in jpg format"⟩] ∧
    (handle_take_screenshot_and_save (mkEnv bridgeQuiet)
        { output_path := some "shot.jpg", format := some "jpg" } ⟨[], []⟩).2.disk = [] ∧
    (handle_take_screenshot_and_save (mkEnv bridgeQuiet)
        { output_path := some "shot.png", format := some "jpg" } ⟨[], []⟩).1 =
      .ok [⟨"Screenshot saved to: /root/shot.jpg in jpg format"⟩] ∧
    (handle_take_screenshot_and_save (mkEnv bridgeQuiet)
        { output_path := some "shot.png", format := some "jpg" } ⟨[], []⟩).2.disk =
      ["/root/shot.jpg"] := by
  decide

end AdbMcp
